import Mathlib

/-!
# Verification of `BlendTreeRaycastNode::DoOutput` and `MyProjectSystemComponent`

Shallow embedding of

* `dev/Gems/EMotionFX/Code/EMotionFX/Source/BlendTreeRaycastNode.cpp`
* `dev/MyProject/Gem/Code/Source/MyProjectSystemComponent.cpp`

`float` is modelled by an arbitrary linearly ordered field `F`; the square root used by
`AZ::Vector3::GetLengthExact` is a parameter `sqrtf : F → F`, so that a rounding routine can
be supplied as well as an exact one.  Statements hold for every `sqrtf` unless they say
otherwise: the zero-length claim assumes `sqrtf 0 = 0`, and only the claim that is posed
over exact real arithmetic assumes `IsExactSqrt sqrtf`.  Every definition is generic in `F`
and computable.
-/

namespace AZ

/-- Modelled from the spec: `AZ::Vector3` (declared in AzCore, outside the given sources),
a 3D point or vector with scalar components. -/
structure Vector3 (F : Type) where
  x : F
  y : F
  z : F
deriving DecidableEq

namespace Vector3

variable {F : Type} [LinearOrderedField F]

/-- Modelled from the spec: `AZ::Vector3::operator-` (AzCore), the componentwise difference
used for `direction = end - start`. -/
def sub (a b : Vector3 F) : Vector3 F := ⟨a.x - b.x, a.y - b.y, a.z - b.z⟩

/-- Modelled from the spec: `AZ::Vector3::operator+` (AzCore), componentwise sum. -/
def add (a b : Vector3 F) : Vector3 F := ⟨a.x + b.x, a.y + b.y, a.z + b.z⟩

/-- Modelled from the spec: `AZ::Vector3::operator*` by a scalar (AzCore). -/
def mulFloat (v : Vector3 F) (s : F) : Vector3 F := ⟨v.x * s, v.y * s, v.z * s⟩

/-- Modelled from the spec: `AZ::Vector3::operator/=` by a scalar (AzCore), the componentwise
division that normalises the direction. -/
def divFloat (v : Vector3 F) (s : F) : Vector3 F := ⟨v.x / s, v.y / s, v.z / s⟩

/-- Modelled from the spec: `AZ::Vector3::GetLengthSq` (AzCore), the squared Euclidean
length. -/
def GetLengthSq (v : Vector3 F) : F := v.x * v.x + v.y * v.y + v.z * v.z

/-- Modelled from the spec: `AZ::Vector3::GetLengthExact` (AzCore), `distance = |direction|`,
computed as the square root `sqrtf` of the squared length. -/
def GetLengthExact (sqrtf : F → F) (v : Vector3 F) : F := sqrtf (GetLengthSq v)

end Vector3

/-- The square-root routine is exact: on every non-negative argument it returns the
non-negative root.  This is the stipulation "over exact real arithmetic"; a rounding routine
such as the `float` one does not meet it. -/
def IsExactSqrt {F : Type} [LinearOrderedField F] (sqrtf : F → F) : Prop :=
  ∀ x : F, 0 ≤ x → 0 ≤ sqrtf x ∧ sqrtf x * sqrtf x = x

end AZ

namespace EMotionFX

open AZ

/-- Modelled from the spec: `Physics::QueryType` (declared outside the given sources), the
query classification; the node always asks for `Static`. -/
inductive QueryType where
  | StaticAndDynamic
  | Static
  | Dynamic
deriving DecidableEq

/-- Modelled from the spec: `Integration::RaycastRequests::UsecaseHint` (declared in
`Integration/AnimationBus.h`, outside the given sources); the node always passes
`Generic`. -/
inductive UsecaseHint where
  | Generic
  | FootPlant
deriving DecidableEq

/-- Modelled from the spec: `Integration::RaycastRequests::RaycastRequest`, the request
record {origin, direction, distance, query class, usage hint}. -/
structure RaycastRequest (F : Type) where
  m_start : Vector3 F
  m_direction : Vector3 F
  m_distance : F
  m_queryType : QueryType
  m_hint : UsecaseHint
deriving DecidableEq

/-- Modelled from the spec: `Integration::RaycastRequests::RaycastResult`, the response
record {intersected, position, normal}. -/
structure RaycastResult (F : Type) where
  m_position : Vector3 F
  m_normal : Vector3 F
  m_intersected : Bool
deriving DecidableEq

/-- Identifier of the entity a raycast is addressed to (`AZ::EntityId`). -/
abbrev EntityId := Nat

/-- The raycast request bus: zero or one handler (the raycast provider) answering a request
addressed to an entity. -/
abbrev RaycastRequestBus (F : Type) := Option (EntityId → RaycastRequest F → RaycastResult F)

/-- The two input ports of the node (`INPUTPORT_RAY_START`, `INPUTPORT_RAY_END`). -/
inductive InputPort where
  | INPUTPORT_RAY_START
  | INPUTPORT_RAY_END
deriving DecidableEq

/-- The part of `AnimGraphInstance` (the evaluation context) that `DoOutput` reads and
writes: what each input port currently delivers (`none` when `TryGetInputVector3` fails),
the per-context error flag, the owning actor instance's runtime-owned flag and entity id,
and the three output ports. -/
structure AnimGraphInstance (F : Type) where
  inputRayStart : Option (Vector3 F)
  inputRayEnd : Option (Vector3 F)
  hasError : Bool
  isOwnedByRuntime : Bool
  entityId : EntityId
  outputPosition : Vector3 F
  outputNormal : Vector3 F
  outputIntersected : F

/-- What one evaluation of `DoOutput` leaves behind: the updated context, the local
`rayRequest` as built at lines 98-103 (`none` when the evaluation returned before building
it), the requests that were delivered to the raycast provider (in order), and the divisors
with which `rayDirection /= maxDistance` was executed (in order). -/
structure Outcome (F : Type) where
  context : AnimGraphInstance F
  rayRequest : Option (RaycastRequest F)
  raycasts : List (EntityId × RaycastRequest F)
  divisors : List F

variable {F : Type} [LinearOrderedField F]

/-- Modelled from the spec: a default-constructed `RaycastResult`, the zero-initialized
"no intersection" state. -/
def RaycastResult.zeroInit : RaycastResult F :=
  { m_position := ⟨0, 0, 0⟩, m_normal := ⟨0, 0, 0⟩, m_intersected := false }

/-- Modelled from the spec: `AnimGraphNode::TryGetInputVector3`, reading a vector from an
input port, `none` when it is unavailable or invalid. -/
def TryGetInputVector3 (animGraphInstance : AnimGraphInstance F) :
    InputPort → Option (Vector3 F)
  | .INPUTPORT_RAY_START => animGraphInstance.inputRayStart
  | .INPUTPORT_RAY_END => animGraphInstance.inputRayEnd

/-- Modelled from the spec: `AnimGraphObject::SetHasError`, setting or clearing the
per-context error flag. -/
def SetHasError (animGraphInstance : AnimGraphInstance F) (hasError : Bool) :
    AnimGraphInstance F :=
  { animGraphInstance with hasError := hasError }

/-- The three `GetOutput…(…)->SetValue(…)` statements that close each path of `DoOutput`. -/
def SetOutputs (animGraphInstance : AnimGraphInstance F) (position normal : Vector3 F)
    (intersected : F) : AnimGraphInstance F :=
  { animGraphInstance with
    outputPosition := position, outputNormal := normal, outputIntersected := intersected }

/-- Modelled from the spec: `RaycastRequestBus::BroadcastResult`, a best-effort broadcast:
with a handler connected the result is overwritten by its answer and the request counts as
delivered; with none the result is left as it was. -/
def BroadcastResult (bus : RaycastRequestBus F) (rayResult : RaycastResult F)
    (entityId : EntityId) (rayRequest : RaycastRequest F) :
    RaycastResult F × List (EntityId × RaycastRequest F) :=
  match bus with
  | none => (rayResult, [])
  | some handler => (handler entityId rayRequest, [(entityId, rayRequest)])

/-- Lines 82-86 of `BlendTreeRaycastNode.cpp`: the missing-input path of `DoOutput`. -/
def DoOutputMissingInput (animGraphInstance : AnimGraphInstance F) : Outcome F :=
  { context := SetOutputs (SetHasError animGraphInstance true) ⟨0, 0, 0⟩ ⟨0, 0, 1⟩ 0,
    rayRequest := none,
    raycasts := [],
    divisors := [] }

/-- `BlendTreeRaycastNode::DoOutput` (lines 74-125). -/
def DoOutput (sqrtf : F → F) (bus : RaycastRequestBus F)
    (animGraphInstance : AnimGraphInstance F) : Outcome F :=
  match TryGetInputVector3 animGraphInstance .INPUTPORT_RAY_START with
  | none => DoOutputMissingInput animGraphInstance
  | some rayStart =>
    match TryGetInputVector3 animGraphInstance .INPUTPORT_RAY_END with
    | none => DoOutputMissingInput animGraphInstance
    | some rayEnd =>
      let animGraphInstance := SetHasError animGraphInstance false
      let rayDirection := rayEnd.sub rayStart
      let maxDistance := rayDirection.GetLengthExact sqrtf
      let normalised : Vector3 F × List F :=
        if maxDistance > 0 then (rayDirection.divFloat maxDistance, [maxDistance])
        else (rayDirection, [])
      let rayDirection := normalised.1
      let rayRequest : RaycastRequest F :=
        { m_start := rayStart,
          m_direction := rayDirection,
          m_distance := maxDistance,
          m_queryType := QueryType.Static,
          m_hint := UsecaseHint.Generic }
      let rayResult : RaycastResult F := RaycastResult.zeroInit
      let cast : RaycastResult F × List (EntityId × RaycastRequest F) :=
        if animGraphInstance.isOwnedByRuntime then
          BroadcastResult bus rayResult animGraphInstance.entityId rayRequest
        else (rayResult, [])
      let rayResult := cast.1
      let animGraphInstance :=
        if rayResult.m_intersected then
          SetOutputs animGraphInstance rayResult.m_position rayResult.m_normal 1
        else
          SetOutputs animGraphInstance rayStart ⟨0, 0, 1⟩ 0
      { context := animGraphInstance,
        rayRequest := some rayRequest,
        raycasts := cast.2,
        divisors := normalised.2 }

end EMotionFX

namespace MyProject

/-- Modelled from the spec: `AZ::ComponentDescriptor::DependencyArrayType`, a vector of
service ids (`AZ::Crc32`). -/
abbrev DependencyArrayType := Array Nat

/-- `MyProjectSystemComponent::GetProvidedServices` (lines 40-43); the `AZ_CRC` macro is a
parameter. -/
def GetProvidedServices (AZ_CRC : String → Nat) (provided : DependencyArrayType) :
    DependencyArrayType :=
  provided.push (AZ_CRC "MyProjectService")

/-- `MyProjectSystemComponent::GetIncompatibleServices` (lines 45-48). -/
def GetIncompatibleServices (AZ_CRC : String → Nat) (incompatible : DependencyArrayType) :
    DependencyArrayType :=
  incompatible.push (AZ_CRC "MyProjectService")

/-- `MyProjectSystemComponent::GetRequiredServices` (lines 50-53). -/
def GetRequiredServices (required : DependencyArrayType) : DependencyArrayType :=
  required

/-- `MyProjectSystemComponent::GetDependentServices` (lines 55-58). -/
def GetDependentServices (dependent : DependencyArrayType) : DependencyArrayType :=
  dependent

end MyProject

/-! ## Example inputs -/

namespace Examples

open AZ EMotionFX

variable {F : Type} [LinearOrderedField F]

/-- An evaluation context for entity 7 whose output ports still hold stale values. -/
def context (rayStart rayEnd : Option (Vector3 F)) (hasError isOwnedByRuntime : Bool) :
    AnimGraphInstance F :=
  { inputRayStart := rayStart,
    inputRayEnd := rayEnd,
    hasError := hasError,
    isOwnedByRuntime := isOwnedByRuntime,
    entityId := 7,
    outputPosition := ⟨9, 9, 9⟩,
    outputNormal := ⟨9, 9, 9⟩,
    outputIntersected := 9 }

/-- A mocked raycast provider that answers every request with the same record. -/
def provider (position normal : Vector3 F) (intersected : Bool) :
    EntityId → RaycastRequest F → RaycastResult F :=
  fun _ _ => { m_position := position, m_normal := normal, m_intersected := intersected }

/-- A rounding square root on `ℚ`.  The squared length reaches the routine as a binary32
value: an argument below 2^-150, half of the least positive binary32 number, has been
rounded to 0, whose root is 0.  Any other argument n/d is sent to ⌊√(n·d)⌋/d, the exact root
whenever the argument has a rational one. -/
def sqrtfRounded (x : ℚ) : ℚ :=
  if x < 1 / 2 ^ 150 then 0 else (Nat.sqrt (x.num.toNat * x.den) : ℚ) / (x.den : ℚ)

end Examples

/-! ## Auxiliary facts -/

namespace AZ

namespace Vector3

variable {F : Type} [LinearOrderedField F]

theorem GetLengthSq_nonneg (v : Vector3 F) : 0 ≤ GetLengthSq v := by
  unfold GetLengthSq
  have hx := mul_self_nonneg v.x
  have hy := mul_self_nonneg v.y
  have hz := mul_self_nonneg v.z
  linarith

theorem GetLengthSq_eq_zero_iff (v : Vector3 F) : GetLengthSq v = 0 ↔ v = ⟨0, 0, 0⟩ := by
  constructor
  · intro h
    unfold GetLengthSq at h
    have hx := mul_self_nonneg v.x
    have hy := mul_self_nonneg v.y
    have hz := mul_self_nonneg v.z
    have hx0 : v.x * v.x = 0 := by linarith
    have hy0 : v.y * v.y = 0 := by linarith
    have hz0 : v.z * v.z = 0 := by linarith
    cases v with
    | mk a b c =>
      simp only [mul_self_eq_zero] at hx0 hy0 hz0
      simp [hx0, hy0, hz0]
  · intro h
    subst h
    simp [GetLengthSq]

theorem sub_eq_zero_iff (a b : Vector3 F) : a.sub b = ⟨0, 0, 0⟩ ↔ a = b := by
  cases a with
  | mk a1 a2 a3 =>
    cases b with
    | mk b1 b2 b3 =>
      simp [sub, sub_eq_zero]

theorem sub_self_eq (a : Vector3 F) : a.sub a = ⟨0, 0, 0⟩ :=
  (sub_eq_zero_iff a a).2 rfl

end Vector3

variable {F : Type} [LinearOrderedField F]

theorem IsExactSqrt.sqrt_mul_self {sqrtf : F → F} (hs : IsExactSqrt sqrtf) {y : F}
    (hy : 0 ≤ y) : sqrtf (y * y) = y := by
  obtain ⟨h0, h1⟩ := hs (y * y) (mul_self_nonneg y)
  exact (mul_self_inj h0 hy).1 h1

theorem IsExactSqrt.sqrt_zero {sqrtf : F → F} (hs : IsExactSqrt sqrtf) : sqrtf 0 = 0 := by
  have h := hs.sqrt_mul_self (le_refl (0 : F))
  simpa using h

theorem IsExactSqrt.sqrt_one {sqrtf : F → F} (hs : IsExactSqrt sqrtf) : sqrtf 1 = 1 := by
  have h := hs.sqrt_mul_self (zero_le_one : (0 : F) ≤ 1)
  simpa using h

theorem IsExactSqrt.sqrt_eq_zero_iff {sqrtf : F → F} (hs : IsExactSqrt sqrtf) {x : F}
    (hx : 0 ≤ x) : sqrtf x = 0 ↔ x = 0 := by
  constructor
  · intro h
    have h1 := (hs x hx).2
    rw [h] at h1
    simpa using h1.symm
  · intro h
    subst h
    exact hs.sqrt_zero

/-- The real square root is an exact square root. -/
theorem isExactSqrt_real : IsExactSqrt Real.sqrt :=
  fun x hx => ⟨Real.sqrt_nonneg x, Real.mul_self_sqrt hx⟩

end AZ

namespace EMotionFX

open AZ

variable {F : Type} [LinearOrderedField F]

/-- With both inputs available, the request record `DoOutput` builds (lines 91-103). -/
theorem DoOutput_rayRequest (sqrtf : F → F) (bus : RaycastRequestBus F)
    (ctx : AnimGraphInstance F) (rayStart rayEnd : Vector3 F)
    (hstart : ctx.inputRayStart = some rayStart) (hend : ctx.inputRayEnd = some rayEnd) :
    (DoOutput sqrtf bus ctx).rayRequest =
      some
        { m_start := rayStart,
          m_direction :=
            if (rayEnd.sub rayStart).GetLengthExact sqrtf > 0 then
              (rayEnd.sub rayStart).divFloat ((rayEnd.sub rayStart).GetLengthExact sqrtf)
            else rayEnd.sub rayStart,
          m_distance := (rayEnd.sub rayStart).GetLengthExact sqrtf,
          m_queryType := QueryType.Static,
          m_hint := UsecaseHint.Generic } := by
  unfold DoOutput
  simp only [TryGetInputVector3, hstart, hend]
  split_ifs <;> rfl

/-- Every divisor `DoOutput` divides by is positive: nothing is ever divided by zero. -/
theorem DoOutput_divisors_pos (sqrtf : F → F) (bus : RaycastRequestBus F)
    (ctx : AnimGraphInstance F) : ∀ d ∈ (DoOutput sqrtf bus ctx).divisors, 0 < d := by
  unfold DoOutput
  simp only [TryGetInputVector3]
  cases ctx.inputRayStart with
  | none => simp [DoOutputMissingInput]
  | some rayStart =>
    cases ctx.inputRayEnd with
    | none => simp [DoOutputMissingInput]
    | some rayEnd =>
      simp only
      split_ifs with hpos
      · simpa using hpos
      · simp

/-! ## The claims about `BlendTreeRaycastNode::DoOutput` -/

/-- C1: whenever the ray-start or the ray-end input is unavailable (whatever the square
root routine, the provider, the other input, the previous error flag and the runtime-owned
flag are), `DoOutput` sets the error flag, writes Position = (0,0,0), Normal = (0,0,1),
Intersected = 0 and delivers no request to the raycast provider. -/
theorem DoOutput_missing_input (sqrtf : F → F) (bus : RaycastRequestBus F)
    (ctx : AnimGraphInstance F)
    (hmissing : ctx.inputRayStart = none ∨ ctx.inputRayEnd = none) :
    (DoOutput sqrtf bus ctx).context.hasError = true ∧
    (DoOutput sqrtf bus ctx).context.outputPosition = ⟨0, 0, 0⟩ ∧
    (DoOutput sqrtf bus ctx).context.outputNormal = ⟨0, 0, 1⟩ ∧
    (DoOutput sqrtf bus ctx).context.outputIntersected = 0 ∧
    (DoOutput sqrtf bus ctx).raycasts = [] := by
  have hpath : DoOutput sqrtf bus ctx = DoOutputMissingInput ctx := by
    unfold DoOutput
    simp only [TryGetInputVector3]
    rcases hmissing with h | h
    · rw [h]
    · rw [h]
      cases ctx.inputRayStart <;> rfl
  rw [hpath]
  simp [DoOutputMissingInput, SetOutputs, SetHasError]

/-- C2: with both inputs valid, in a runtime-owned context whose provider answers the
dispatched request with intersected = true, position = P, normal = N, `DoOutput` writes
exactly Position = P, Normal = N, Intersected = 1. -/
theorem DoOutput_hit (sqrtf : F → F)
    (handler : EntityId → RaycastRequest F → RaycastResult F)
    (ctx : AnimGraphInstance F) (rayStart rayEnd P N : Vector3 F)
    (hstart : ctx.inputRayStart = some rayStart) (hend : ctx.inputRayEnd = some rayEnd)
    (hruntime : ctx.isOwnedByRuntime = true)
    (hanswer : ∀ call ∈ (DoOutput sqrtf (some handler) ctx).raycasts,
      handler call.1 call.2 = { m_position := P, m_normal := N, m_intersected := true }) :
    (DoOutput sqrtf (some handler) ctx).context.outputPosition = P ∧
    (DoOutput sqrtf (some handler) ctx).context.outputNormal = N ∧
    (DoOutput sqrtf (some handler) ctx).context.outputIntersected = 1 := by
  unfold DoOutput at hanswer ⊢
  simp only [TryGetInputVector3, hstart, hend, SetHasError, hruntime, BroadcastResult,
    if_true, List.mem_singleton, forall_eq] at hanswer ⊢
  simp [hanswer, SetOutputs]

/-- C3: with both inputs valid and a provider whose answer to any dispatched request has
intersected = false (whatever its position and normal), `DoOutput` writes exactly
Position = ray start, Normal = (0,0,1), Intersected = 0, independently of the ray end. -/
theorem DoOutput_miss (sqrtf : F → F)
    (handler : EntityId → RaycastRequest F → RaycastResult F)
    (ctx : AnimGraphInstance F) (rayStart rayEnd : Vector3 F)
    (hstart : ctx.inputRayStart = some rayStart) (hend : ctx.inputRayEnd = some rayEnd)
    (hanswer : ∀ call ∈ (DoOutput sqrtf (some handler) ctx).raycasts,
      (handler call.1 call.2).m_intersected = false) :
    (DoOutput sqrtf (some handler) ctx).context.outputPosition = rayStart ∧
    (DoOutput sqrtf (some handler) ctx).context.outputNormal = ⟨0, 0, 1⟩ ∧
    (DoOutput sqrtf (some handler) ctx).context.outputIntersected = 0 := by
  unfold DoOutput at hanswer ⊢
  simp only [TryGetInputVector3, hstart, hend, SetHasError, BroadcastResult] at hanswer ⊢
  cases hruntime : ctx.isOwnedByRuntime
  · simp [RaycastResult.zeroInit, SetOutputs]
  · simp only [hruntime, if_true, List.mem_singleton, forall_eq] at hanswer
    simp [hanswer, SetOutputs]

/-- C4: when the owning actor instance is not runtime-owned, `DoOutput` delivers no request
to the provider whatever the inputs are, and with both inputs valid the outputs are the miss
case Position = ray start, Normal = (0,0,1), Intersected = 0, for every provider. -/
theorem DoOutput_not_runtime (sqrtf : F → F) (bus : RaycastRequestBus F)
    (ctx : AnimGraphInstance F) (hruntime : ctx.isOwnedByRuntime = false) :
    (DoOutput sqrtf bus ctx).raycasts = [] ∧
    ∀ rayStart rayEnd : Vector3 F,
      ctx.inputRayStart = some rayStart → ctx.inputRayEnd = some rayEnd →
      (DoOutput sqrtf bus ctx).context.outputPosition = rayStart ∧
      (DoOutput sqrtf bus ctx).context.outputNormal = ⟨0, 0, 1⟩ ∧
      (DoOutput sqrtf bus ctx).context.outputIntersected = 0 := by
  constructor
  · unfold DoOutput
    simp only [TryGetInputVector3, SetHasError, hruntime]
    cases ctx.inputRayStart with
    | none => rfl
    | some rayStart =>
      cases ctx.inputRayEnd with
      | none => rfl
      | some rayEnd => simp
  · intro rayStart rayEnd hstart hend
    unfold DoOutput
    simp [TryGetInputVector3, hstart, hend, SetHasError, hruntime, RaycastResult.zeroInit,
      SetOutputs]

/-- C5 (amended): with both inputs valid, in a runtime-owned context with a provider
connected, `DoOutput` delivers exactly one request, addressed to the context's entity:
origin = ray start, distance = the length `GetLengthExact` computes for end - start,
direction = (end - start) / distance when that computed distance is positive and the
unnormalised difference end - start otherwise (a ray whose computed distance is 0 is
dispatched, not skipped), query type Static, hint Generic.  Holds for every square-root
routine. -/
theorem DoOutput_forwards_request (sqrtf : F → F)
    (handler : EntityId → RaycastRequest F → RaycastResult F)
    (ctx : AnimGraphInstance F) (rayStart rayEnd : Vector3 F)
    (hstart : ctx.inputRayStart = some rayStart) (hend : ctx.inputRayEnd = some rayEnd)
    (hruntime : ctx.isOwnedByRuntime = true) :
    (DoOutput sqrtf (some handler) ctx).raycasts =
      [(ctx.entityId,
        { m_start := rayStart,
          m_direction :=
            if (rayEnd.sub rayStart).GetLengthExact sqrtf > 0 then
              (rayEnd.sub rayStart).divFloat ((rayEnd.sub rayStart).GetLengthExact sqrtf)
            else rayEnd.sub rayStart,
          m_distance := (rayEnd.sub rayStart).GetLengthExact sqrtf,
          m_queryType := QueryType.Static,
          m_hint := UsecaseHint.Generic })] := by
  unfold DoOutput
  simp only [TryGetInputVector3, hstart, hend, SetHasError, hruntime, BroadcastResult,
    if_true]
  split_ifs <;> rfl

/-- C6: for equal valid inputs (start = end) the distance computed by `DoOutput` is 0, the
direction of the request stays the zero vector end - start, and the division
`rayDirection /= maxDistance` is not executed, so nothing is divided by zero. -/
theorem DoOutput_zero_length (sqrtf : F → F) (hzero : sqrtf 0 = 0)
    (bus : RaycastRequestBus F) (ctx : AnimGraphInstance F) (point : Vector3 F)
    (hstart : ctx.inputRayStart = some point) (hend : ctx.inputRayEnd = some point) :
    (DoOutput sqrtf bus ctx).rayRequest =
      some
        { m_start := point,
          m_direction := point.sub point,
          m_distance := 0,
          m_queryType := QueryType.Static,
          m_hint := UsecaseHint.Generic } ∧
    point.sub point = ⟨0, 0, 0⟩ ∧
    (DoOutput sqrtf bus ctx).divisors = [] := by
  have hlen : (point.sub point).GetLengthExact sqrtf = 0 := by
    simp [Vector3.GetLengthExact, Vector3.GetLengthSq, Vector3.sub, hzero]
  refine ⟨?_, Vector3.sub_self_eq point, ?_⟩
  · unfold DoOutput
    simp [TryGetInputVector3, hstart, hend, hlen]
  · unfold DoOutput
    simp [TryGetInputVector3, hstart, hend, hlen]

/-- C7: the ray `DoOutput` derives from valid inputs has a non-negative distance, and for
start ≠ end its direction has length exactly 1 and start + direction * distance = end. -/
theorem DoOutput_unit_direction (sqrtf : F → F) (hsqrt : IsExactSqrt sqrtf)
    (bus : RaycastRequestBus F) (ctx : AnimGraphInstance F) (rayStart rayEnd : Vector3 F)
    (hstart : ctx.inputRayStart = some rayStart) (hend : ctx.inputRayEnd = some rayEnd) :
    ∃ rayRequest : RaycastRequest F,
      (DoOutput sqrtf bus ctx).rayRequest = some rayRequest ∧
      rayRequest.m_start = rayStart ∧
      0 ≤ rayRequest.m_distance ∧
      (rayStart ≠ rayEnd →
        rayRequest.m_direction.GetLengthSq = 1 ∧
        rayRequest.m_direction.GetLengthExact sqrtf = 1 ∧
        rayStart.add (rayRequest.m_direction.mulFloat rayRequest.m_distance) = rayEnd) := by
  have hroot := hsqrt _ (Vector3.GetLengthSq_nonneg (rayEnd.sub rayStart))
  refine Exists.intro _ (And.intro (DoOutput_rayRequest sqrtf bus ctx rayStart rayEnd hstart hend) ?_)
  · refine ⟨rfl, hroot.1, ?_⟩
    intro hne
    have hsq : (rayEnd.sub rayStart).GetLengthSq ≠ 0 := by
      rw [Ne, Vector3.GetLengthSq_eq_zero_iff, Vector3.sub_eq_zero_iff]
      exact fun h => hne h.symm
    have hlen : (rayEnd.sub rayStart).GetLengthExact sqrtf ≠ 0 := by
      unfold Vector3.GetLengthExact
      rw [Ne, hsqrt.sqrt_eq_zero_iff (Vector3.GetLengthSq_nonneg _)]
      exact hsq
    have hpos : (rayEnd.sub rayStart).GetLengthExact sqrtf > 0 :=
      lt_of_le_of_ne hroot.1 (Ne.symm hlen)
    simp only [hpos, if_true]
    have hunit : ((rayEnd.sub rayStart).divFloat
        ((rayEnd.sub rayStart).GetLengthExact sqrtf)).GetLengthSq = 1 := by
      have h2 := hroot.2
      unfold Vector3.GetLengthExact at hlen h2 ⊢
      unfold Vector3.GetLengthSq Vector3.divFloat
      unfold Vector3.GetLengthSq at hlen h2
      simp only []
      field_simp
      linarith
    refine ⟨hunit, ?_, ?_⟩
    · unfold Vector3.GetLengthExact at hunit ⊢
      rw [hunit]
      exact hsqrt.sqrt_one
    · cases rayStart with
      | mk a1 a2 a3 =>
        cases rayEnd with
        | mk b1 b2 b3 =>
          simp only [Vector3.add, Vector3.mulFloat, Vector3.divFloat, Vector3.sub] at hlen ⊢
          simp [div_mul_cancel₀ _ hlen]

/-- C9: after every evaluation the error flag is true if and only if the ray-start or the
ray-end input was unavailable; with both inputs valid it is cleared whatever it was before,
whatever the ray length, the runtime-owned flag and the provider are. -/
theorem DoOutput_hasError_iff (sqrtf : F → F) (bus : RaycastRequestBus F)
    (ctx : AnimGraphInstance F) :
    (DoOutput sqrtf bus ctx).context.hasError = true ↔
      (ctx.inputRayStart = none ∨ ctx.inputRayEnd = none) := by
  unfold DoOutput
  simp only [TryGetInputVector3, SetHasError]
  cases ctx.inputRayStart with
  | none => simp [DoOutputMissingInput, SetOutputs, SetHasError]
  | some rayStart =>
    cases ctx.inputRayEnd with
    | none => simp [DoOutputMissingInput, SetOutputs, SetHasError]
    | some rayEnd =>
      simp only [SetOutputs]
      split_ifs <;> simp

/-- C10: the Intersected output is 0 or 1; it is 1 if and only if both inputs are valid,
the actor instance is runtime-owned and the connected provider answers the request built
from ray start and ray end (lines 91-103) with intersected = true; and whenever it is 0 the
Normal output is (0,0,1). -/
theorem DoOutput_intersected (sqrtf : F → F) (bus : RaycastRequestBus F)
    (ctx : AnimGraphInstance F) :
    ((DoOutput sqrtf bus ctx).context.outputIntersected = 0 ∨
      (DoOutput sqrtf bus ctx).context.outputIntersected = 1) ∧
    ((DoOutput sqrtf bus ctx).context.outputIntersected = 1 ↔
      ∃ rayStart rayEnd handler,
        ctx.inputRayStart = some rayStart ∧ ctx.inputRayEnd = some rayEnd ∧
        ctx.isOwnedByRuntime = true ∧ bus = some handler ∧
        (handler ctx.entityId
          { m_start := rayStart,
            m_direction :=
              if (rayEnd.sub rayStart).GetLengthExact sqrtf > 0 then
                (rayEnd.sub rayStart).divFloat ((rayEnd.sub rayStart).GetLengthExact sqrtf)
              else rayEnd.sub rayStart,
            m_distance := (rayEnd.sub rayStart).GetLengthExact sqrtf,
            m_queryType := QueryType.Static,
            m_hint := UsecaseHint.Generic }).m_intersected = true) ∧
    ((DoOutput sqrtf bus ctx).context.outputIntersected = 0 →
      (DoOutput sqrtf bus ctx).context.outputNormal = ⟨0, 0, 1⟩) := by
  unfold DoOutput
  simp only [TryGetInputVector3, SetHasError]
  cases ctx.inputRayStart with
  | none => simp [DoOutputMissingInput, SetOutputs, SetHasError]
  | some rayStart =>
    cases ctx.inputRayEnd with
    | none => simp [DoOutputMissingInput, SetOutputs, SetHasError]
    | some rayEnd =>
      cases hruntime : ctx.isOwnedByRuntime with
      | false => simp [RaycastResult.zeroInit, SetOutputs]
      | true =>
        cases bus with
        | none => simp [BroadcastResult, RaycastResult.zeroInit, SetOutputs]
        | some handler =>
          simp only [BroadcastResult, SetOutputs, if_true, gt_iff_lt]
          by_cases hpos : 0 < (rayEnd.sub rayStart).GetLengthExact sqrtf
          · simp only [if_pos hpos]
            split_ifs with hhit <;> simp [hhit, hpos]
          · simp only [if_neg hpos]
            split_ifs with hhit <;> simp [hhit, hpos]

end EMotionFX

/-! ## The claim about `MyProjectSystemComponent` -/

namespace MyProject

/-- C8: `GetProvidedServices` and `GetIncompatibleServices` each append exactly one element,
the same id `AZ_CRC("MyProjectService")`, after the existing elements of the array they are
given, and `GetRequiredServices` and `GetDependentServices` leave the array unchanged; on an
empty array the declarations are provided = incompatible = {MyProjectService},
required = dependent = {}. -/
theorem service_declarations (AZ_CRC : String → Nat) (services : DependencyArrayType) :
    (GetProvidedServices AZ_CRC services).toList =
      services.toList ++ [AZ_CRC "MyProjectService"] ∧
    (GetIncompatibleServices AZ_CRC services).toList =
      services.toList ++ [AZ_CRC "MyProjectService"] ∧
    GetRequiredServices services = services ∧
    GetDependentServices services = services ∧
    (GetProvidedServices AZ_CRC #[]).toList = [AZ_CRC "MyProjectService"] ∧
    (GetIncompatibleServices AZ_CRC #[]).toList = [AZ_CRC "MyProjectService"] ∧
    (GetRequiredServices #[]).toList = [] ∧
    (GetDependentServices #[]).toList = [] := by
  simp [GetProvidedServices, GetIncompatibleServices, GetRequiredServices,
    GetDependentServices]

end MyProject

/-! ## The theorems at concrete inputs -/

namespace Examples

open AZ EMotionFX

/-- C1 at a concrete input: ray start missing, ray end (0,0,10), flag clear, runtime-owned,
a provider that would report a hit. -/
theorem DoOutput_missing_input_witness :
    ((context none (some ⟨0, 0, 10⟩) false true : AnimGraphInstance ℚ).inputRayStart = none ∨
      (context none (some ⟨0, 0, 10⟩) false true : AnimGraphInstance ℚ).inputRayEnd = none) ∧
    (DoOutput id (some (provider ⟨1, 2, 3⟩ ⟨0, 1, 0⟩ true))
      (context none (some ⟨0, 0, 10⟩) false true : AnimGraphInstance ℚ)).context.hasError
        = true ∧
    (DoOutput id (some (provider ⟨1, 2, 3⟩ ⟨0, 1, 0⟩ true))
      (context none (some ⟨0, 0, 10⟩) false true : AnimGraphInstance ℚ)).context.outputPosition
        = ⟨0, 0, 0⟩ ∧
    (DoOutput id (some (provider ⟨1, 2, 3⟩ ⟨0, 1, 0⟩ true))
      (context none (some ⟨0, 0, 10⟩) false true : AnimGraphInstance ℚ)).context.outputNormal
        = ⟨0, 0, 1⟩ ∧
    (DoOutput id (some (provider ⟨1, 2, 3⟩ ⟨0, 1, 0⟩ true))
      (context none (some ⟨0, 0, 10⟩) false true :
        AnimGraphInstance ℚ)).context.outputIntersected = 0 ∧
    (DoOutput id (some (provider ⟨1, 2, 3⟩ ⟨0, 1, 0⟩ true))
      (context none (some ⟨0, 0, 10⟩) false true : AnimGraphInstance ℚ)).raycasts = [] :=
  ⟨Or.inl rfl, DoOutput_missing_input id _ _ (Or.inl rfl)⟩

/-- C2 at a concrete input: ray (0,0,0) to (0,0,10), runtime-owned, a provider reporting a
hit at (1,2,3) with normal (0,1,0). -/
theorem DoOutput_hit_witness :
    (DoOutput id (some (provider ⟨1, 2, 3⟩ ⟨0, 1, 0⟩ true))
      (context (some ⟨0, 0, 0⟩) (some ⟨0, 0, 10⟩) true true :
        AnimGraphInstance ℚ)).context.outputPosition = ⟨1, 2, 3⟩ ∧
    (DoOutput id (some (provider ⟨1, 2, 3⟩ ⟨0, 1, 0⟩ true))
      (context (some ⟨0, 0, 0⟩) (some ⟨0, 0, 10⟩) true true :
        AnimGraphInstance ℚ)).context.outputNormal = ⟨0, 1, 0⟩ ∧
    (DoOutput id (some (provider ⟨1, 2, 3⟩ ⟨0, 1, 0⟩ true))
      (context (some ⟨0, 0, 0⟩) (some ⟨0, 0, 10⟩) true true :
        AnimGraphInstance ℚ)).context.outputIntersected = 1 :=
  DoOutput_hit id (provider ⟨1, 2, 3⟩ ⟨0, 1, 0⟩ true)
    (context (some ⟨0, 0, 0⟩) (some ⟨0, 0, 10⟩) true true) ⟨0, 0, 0⟩ ⟨0, 0, 10⟩ ⟨1, 2, 3⟩
    ⟨0, 1, 0⟩ rfl rfl rfl (fun _ _ => rfl)

/-- C3 at a concrete input: ray (1,2,3) to (4,6,3), runtime-owned, a provider reporting a
miss together with a position and a normal. -/
theorem DoOutput_miss_witness :
    (DoOutput id (some (provider ⟨5, 5, 5⟩ ⟨0, 1, 0⟩ false))
      (context (some ⟨1, 2, 3⟩) (some ⟨4, 6, 3⟩) true true :
        AnimGraphInstance ℚ)).context.outputPosition = ⟨1, 2, 3⟩ ∧
    (DoOutput id (some (provider ⟨5, 5, 5⟩ ⟨0, 1, 0⟩ false))
      (context (some ⟨1, 2, 3⟩) (some ⟨4, 6, 3⟩) true true :
        AnimGraphInstance ℚ)).context.outputNormal = ⟨0, 0, 1⟩ ∧
    (DoOutput id (some (provider ⟨5, 5, 5⟩ ⟨0, 1, 0⟩ false))
      (context (some ⟨1, 2, 3⟩) (some ⟨4, 6, 3⟩) true true :
        AnimGraphInstance ℚ)).context.outputIntersected = 0 :=
  DoOutput_miss id (provider ⟨5, 5, 5⟩ ⟨0, 1, 0⟩ false)
    (context (some ⟨1, 2, 3⟩) (some ⟨4, 6, 3⟩) true true) ⟨1, 2, 3⟩ ⟨4, 6, 3⟩ rfl rfl
    (fun _ _ => rfl)

/-- C4 at a concrete input: a context that is not runtime-owned, ray (1,2,3) to (4,6,3), a
provider that would report a hit. -/
theorem DoOutput_not_runtime_witness :
    (DoOutput id (some (provider ⟨5, 5, 5⟩ ⟨0, 1, 0⟩ true))
      (context (some ⟨1, 2, 3⟩) (some ⟨4, 6, 3⟩) true false :
        AnimGraphInstance ℚ)).raycasts = [] ∧
    (DoOutput id (some (provider ⟨5, 5, 5⟩ ⟨0, 1, 0⟩ true))
      (context (some ⟨1, 2, 3⟩) (some ⟨4, 6, 3⟩) true false :
        AnimGraphInstance ℚ)).context.outputPosition = ⟨1, 2, 3⟩ ∧
    (DoOutput id (some (provider ⟨5, 5, 5⟩ ⟨0, 1, 0⟩ true))
      (context (some ⟨1, 2, 3⟩) (some ⟨4, 6, 3⟩) true false :
        AnimGraphInstance ℚ)).context.outputNormal = ⟨0, 0, 1⟩ ∧
    (DoOutput id (some (provider ⟨5, 5, 5⟩ ⟨0, 1, 0⟩ true))
      (context (some ⟨1, 2, 3⟩) (some ⟨4, 6, 3⟩) true false :
        AnimGraphInstance ℚ)).context.outputIntersected = 0 :=
  ⟨(DoOutput_not_runtime id _ (context (some ⟨1, 2, 3⟩) (some ⟨4, 6, 3⟩) true false) rfl).1,
    (DoOutput_not_runtime id _ (context (some ⟨1, 2, 3⟩) (some ⟨4, 6, 3⟩) true false) rfl).2
      ⟨1, 2, 3⟩ ⟨4, 6, 3⟩ rfl rfl⟩

/-- C5 (amended) at the example of the specification: start = (0,0,0), end = (0,0,10), with
the rounding square root: the one request delivered has direction (0,0,1) and
distance 10. -/
theorem DoOutput_forwards_request_witness :
    (DoOutput sqrtfRounded (some (provider ⟨1, 2, 3⟩ ⟨0, 1, 0⟩ true))
      (context (some ⟨0, 0, 0⟩) (some ⟨0, 0, 10⟩) false true :
        AnimGraphInstance ℚ)).raycasts =
      [(7,
        { m_start := ⟨0, 0, 0⟩,
          m_direction := ⟨0, 0, 1⟩,
          m_distance := 10,
          m_queryType := QueryType.Static,
          m_hint := UsecaseHint.Generic })] := by
  have hlen : ((⟨0, 0, 10⟩ : Vector3 ℚ).sub ⟨0, 0, 0⟩).GetLengthExact sqrtfRounded = 10 := by
    have hroot : Nat.sqrt 100 = 10 := Nat.sqrt_eq 10
    have hsq : ((⟨0, 0, 10⟩ : Vector3 ℚ).sub ⟨0, 0, 0⟩).GetLengthSq = 100 := by
      norm_num [Vector3.GetLengthSq, Vector3.sub]
    have hnum : (100 : ℚ).num.toNat * (100 : ℚ).den = 100 := by
      rw [show (100 : ℚ).num = 100 from rfl, show (100 : ℚ).den = 1 from rfl]
      rfl
    have hbig : ¬ ((100 : ℚ) < 1 / 2 ^ 150) := by norm_num
    rw [Vector3.GetLengthExact, hsq, sqrtfRounded, if_neg hbig, hnum, hroot,
      show (100 : ℚ).den = 1 from rfl]
    norm_num
  have h := DoOutput_forwards_request sqrtfRounded (provider ⟨1, 2, 3⟩ ⟨0, 1, 0⟩ true)
    (context (some ⟨0, 0, 0⟩) (some ⟨0, 0, 10⟩) false true) ⟨0, 0, 0⟩ ⟨0, 0, 10⟩
    rfl rfl rfl
  rw [h, hlen]
  norm_num [context, Vector3.divFloat, Vector3.sub]

/-- C5 as stated fails: for start = (0,0,0), end = (2^-80,0,0) the squared length 2^-160
is below the binary32 range, the computed distance is 0, and the one request delivered has
distance 0 with the non-zero direction (2^-80,0,0): the direction is not the zero vector
although the distance is zero, and the distance is not |end - start|, whose square is
2^-160. -/
theorem DoOutput_forwards_request_counterexample :
    (DoOutput sqrtfRounded (some (provider ⟨1, 2, 3⟩ ⟨0, 1, 0⟩ true))
      (context (some ⟨0, 0, 0⟩) (some ⟨1 / 2 ^ 80, 0, 0⟩) false true :
        AnimGraphInstance ℚ)).raycasts =
      [(7,
        { m_start := ⟨0, 0, 0⟩,
          m_direction := ⟨1 / 2 ^ 80, 0, 0⟩,
          m_distance := 0,
          m_queryType := QueryType.Static,
          m_hint := UsecaseHint.Generic })] ∧
    (⟨1 / 2 ^ 80, 0, 0⟩ : Vector3 ℚ) ≠ ⟨0, 0, 0⟩ ∧
    (0 : ℚ) * 0 ≠ ((⟨1 / 2 ^ 80, 0, 0⟩ : Vector3 ℚ).sub ⟨0, 0, 0⟩).GetLengthSq := by
  have hsq : ((⟨1 / 2 ^ 80, 0, 0⟩ : Vector3 ℚ).sub ⟨0, 0, 0⟩).GetLengthSq = 1 / 2 ^ 160 := by
    norm_num [Vector3.GetLengthSq, Vector3.sub]
  have hsmall : ((1 : ℚ) / 2 ^ 160 < 1 / 2 ^ 150) := by norm_num
  have hlen : ((⟨1 / 2 ^ 80, 0, 0⟩ : Vector3 ℚ).sub ⟨0, 0, 0⟩).GetLengthExact sqrtfRounded
      = 0 := by
    rw [Vector3.GetLengthExact, hsq, sqrtfRounded, if_pos hsmall]
  refine ⟨?_, ?_, ?_⟩
  · unfold DoOutput
    simp only [TryGetInputVector3, context, SetHasError, BroadcastResult, if_true, hlen,
      gt_iff_lt, lt_self_iff_false, if_false]
    norm_num [Vector3.sub]
  · norm_num
  · rw [hsq]
    norm_num

/-- C6 at a concrete input: start = end = (1,2,3), over the reals with the real square
root, runtime-owned. -/
theorem DoOutput_zero_length_witness :
    (DoOutput Real.sqrt (some (provider ⟨1, 2, 3⟩ ⟨0, 1, 0⟩ true))
      (context (some ⟨1, 2, 3⟩) (some ⟨1, 2, 3⟩) false true :
        AnimGraphInstance ℝ)).rayRequest =
      some
        { m_start := ⟨1, 2, 3⟩,
          m_direction := (⟨1, 2, 3⟩ : Vector3 ℝ).sub ⟨1, 2, 3⟩,
          m_distance := 0,
          m_queryType := QueryType.Static,
          m_hint := UsecaseHint.Generic } ∧
    (⟨1, 2, 3⟩ : Vector3 ℝ).sub ⟨1, 2, 3⟩ = ⟨0, 0, 0⟩ ∧
    (DoOutput Real.sqrt (some (provider ⟨1, 2, 3⟩ ⟨0, 1, 0⟩ true))
      (context (some ⟨1, 2, 3⟩) (some ⟨1, 2, 3⟩) false true :
        AnimGraphInstance ℝ)).divisors = [] :=
  DoOutput_zero_length Real.sqrt Real.sqrt_zero _
    (context (some ⟨1, 2, 3⟩) (some ⟨1, 2, 3⟩) false true) ⟨1, 2, 3⟩ rfl rfl

/-- C7 at a concrete input: start = (1,2,3), end = (4,6,3), over the reals with the real
square root. -/
theorem DoOutput_unit_direction_witness :
    ∃ rayRequest : RaycastRequest ℝ,
      (DoOutput Real.sqrt none
        (context (some ⟨1, 2, 3⟩) (some ⟨4, 6, 3⟩) false false :
          AnimGraphInstance ℝ)).rayRequest = some rayRequest ∧
      rayRequest.m_start = ⟨1, 2, 3⟩ ∧
      0 ≤ rayRequest.m_distance ∧
      rayRequest.m_direction.GetLengthSq = 1 ∧
      rayRequest.m_direction.GetLengthExact Real.sqrt = 1 ∧
      (⟨1, 2, 3⟩ : Vector3 ℝ).add (rayRequest.m_direction.mulFloat rayRequest.m_distance)
        = ⟨4, 6, 3⟩ := by
  obtain ⟨rayRequest, hreq, horigin, hdist, hunit⟩ :=
    DoOutput_unit_direction Real.sqrt isExactSqrt_real none
      (context (some ⟨1, 2, 3⟩) (some ⟨4, 6, 3⟩) false false) ⟨1, 2, 3⟩ ⟨4, 6, 3⟩ rfl rfl
  exact ⟨rayRequest, hreq, horigin, hdist, hunit (by simp)⟩

end Examples
